import Mathlib

/-!
Shallow embedding of the benchmarking driver `experiments/run-big-bench.py`:
ground-truth loading, index construction over the two backends (flatnav and
hnswlib), the metrics engine, and the sweep orchestrator with its
read-merge-write result store.  Machine floats are modelled as rationals,
the per-query wall-clock timings and the backend search results are supplied
by an explicit oracle, and raised Python exceptions become `Except.error`.
-/

set_option autoImplicit false

namespace BigBench

/-- A query is opaque to the driver: it is only handed through to the backend
search call.  We model it as an identifier. -/
abbrev Query := Nat

/-- Parameters passed to `hnswlib.Index.init_index` / `set_num_threads` by
`create_and_train_hnsw_index` (lines 209-229 of the source). -/
structure HnswBuildParams where
  space : String
  dim : Nat
  dataset_size : Nat
  ef_construction : Nat
  max_edges_per_node : Nat
  num_threads : Nat
  deriving DecidableEq

/-- Parameters passed to `flatnav.index.index_factory` in the direct build
branch of `train_index` (lines 292-305 of the source). -/
structure FlatnavBuildParams where
  distance_type : String
  dim : Nat
  dataset_size : Nat
  max_edges_per_node : Nat
  ef_construction : Nat
  deriving DecidableEq

/-- The index value returned by `train_index`: either an hnswlib index, a
flatnav index built from an exported hnsw base-layer graph file, or a flatnav
index built directly.  Each constructor records the parameters the backend
library received. -/
inductive BuiltIndex where
  | hnswIdx (p : HnswBuildParams)
  | flatnavFromBaseLayer (distance_type : String) (dim : Nat)
      (mtx_filename : String) (base : HnswBuildParams)
  | flatnavDirect (p : FlatnavBuildParams)
  deriving DecidableEq

/-- Mirrors `type(index) in (flatnav.index.L2Index, flatnav.index.IPIndex)`:
both flatnav constructors are instances of those classes, the hnswlib index
is not. -/
def isFlatnav : BuiltIndex → Bool
  | .hnswIdx _ => false
  | .flatnavFromBaseLayer _ _ _ _ => true
  | .flatnavDirect _ => true

/-- Embedding of `train_index` (lines 232-310).  `existing_files` is the set
of paths present on disk; the source never consults it (the base-layer branch
creates the file itself via `save_base_layer_graph`), and accordingly the
definition does not read this argument.  The `ValueError` raised when
`use_hnsw_base_layer` is set without a filename becomes `Except.error`;
Python `not filename` is true for both `None` and the empty string. -/
def train_index (distance_type : String) (dim dataset_size : Nat)
    (max_edges_per_node ef_construction : Nat) (index_type : String)
    (use_hnsw_base_layer : Bool) (hnsw_base_layer_filename : Option String)
    (num_build_threads : Nat) (existing_files : List String) :
    Except String BuiltIndex :=
  if index_type = "hnsw" then
    .ok (.hnswIdx
      { space := if distance_type = "l2" then distance_type else "ip"
        dim := dim
        dataset_size := dataset_size
        ef_construction := ef_construction
        max_edges_per_node := max_edges_per_node / 2
        num_threads := num_build_threads })
  else if use_hnsw_base_layer then
    match hnsw_base_layer_filename with
    | none => .error "Must provide a filename for the HNSW base layer graph."
    | some fname =>
      if fname = "" then
        .error "Must provide a filename for the HNSW base layer graph."
      else
        .ok (.flatnavFromBaseLayer distance_type dim fname
          { space := if distance_type = "l2" then distance_type else "ip"
            dim := dim
            dataset_size := dataset_size
            ef_construction := ef_construction
            max_edges_per_node := max_edges_per_node / 2
            num_threads := num_build_threads })
  else
    .ok (.flatnavDirect
      { distance_type := distance_type
        dim := dim
        dataset_size := dataset_size
        max_edges_per_node := max_edges_per_node
        ef_construction := ef_construction })

/-- The backend behaviour observed by the metrics engine: for a given built
index, each search call returns a wall-clock duration (seconds, as measured
by the `time.time()` pair around the call) and the list of returned ids.
`search_single` takes (index, query, ef_search, K, num_initializations) as in
the flatnav branch; `knn_query` takes (index, ef passed via `set_ef`, query,
k) as in the hnswlib branch. -/
structure SearchOracle where
  search_single : BuiltIndex → Query → Nat → Nat → Nat → Rat × List Nat
  knn_query : BuiltIndex → Nat → Query → Nat → Rat × List Nat

/-- The per-query searches issued by `compute_metrics` (lines 148-167): one
sequential search per query; the flatnav branch passes the literal
`num_initializations=100` (line 155). -/
def runQueries (oracle : SearchOracle) (index : BuiltIndex)
    (queries : List Query) (ef_search k : Nat) : List (Rat × List Nat) :=
  if isFlatnav index then
    queries.map fun query => oracle.search_single index query ef_search k 100
  else
    queries.map fun query => oracle.knn_query index ef_search query k

/-- The `latencies` list accumulated by `compute_metrics`. -/
def latenciesOf (oracle : SearchOracle) (index : BuiltIndex)
    (queries : List Query) (ef_search k : Nat) : List Rat :=
  (runQueries oracle index queries ef_search k).map Prod.fst

/-- The `top_k_indices` list accumulated by `compute_metrics`. -/
def topKOf (oracle : SearchOracle) (index : BuiltIndex)
    (queries : List Query) (ef_search k : Nat) : List (List Nat) :=
  (runQueries oracle index queries ef_search k).map Prod.snd

/-- Mean of the latency list, as `np.mean` computes it. -/
def npMean (l : List Rat) : Rat := l.sum / (l.length : Rat)

/-- Insert into a sorted list of rationals, keeping it sorted. -/
def insertRat (x : Rat) : List Rat → List Rat
  | [] => [x]
  | y :: ys => if x ≤ y then x :: y :: ys else y :: insertRat x ys

/-- Insertion sort over rationals, modelling the sort `np.percentile`
performs internally. -/
def sortedLats : List Rat → List Rat
  | [] => []
  | x :: xs => insertRat x (sortedLats xs)

/-- Floor of a nonnegative rational as a natural number. -/
def ratFloorNat (x : Rat) : Nat := x.num.toNat / x.den

/-- Percentile as `np.percentile(l, q)` computes it with the default linear
interpolation: the value at
fractional position `q / 100 * (n - 1)` of the sorted data. -/
def npPercentile (l : List Rat) (q : Rat) : Rat :=
  if l.length = 0 then 0
  else
    let s := sortedLats l
    let pos : Rat := q / 100 * ((l.length : Rat) - 1)
    let i : Nat := ratFloorNat pos
    let lo := s.getD i 0
    let hi := s.getD (min (i + 1) (l.length - 1)) 0
    lo + (pos - (i : Rat)) * (hi - lo)

/-- The conditionally computed throughput and latency entries of the metrics
dictionary (lines 176-190), in source insertion order: each entry is added
only when its name occurs in `requested_metrics`.  `numQueries` is
`len(queries)`; latencies are in seconds and the latency entries are
multiplied by 1000 to report milliseconds. -/
def timingMetrics (requested_metrics : List String) (numQueries : Nat)
    (latencies : List Rat) : List (String × Rat) :=
  (if "qps" ∈ requested_metrics then
    [("qps", (numQueries : Rat) / latencies.sum)] else [])
  ++ (if "latency" ∈ requested_metrics then
    [("latency", npMean latencies * 1000)] else [])
  ++ (if "latency_p95" ∈ requested_metrics then
    [("latency_p95", npPercentile latencies 95 * 1000)] else [])
  ++ (if "latency_p99" ∈ requested_metrics then
    [("latency_p99", npPercentile latencies 99 * 1000)] else [])
  ++ (if "latency_p999" ∈ requested_metrics then
    [("latency_p999", npPercentile latencies (999 / 10) * 1000)] else [])

/-- The number of returned ids of one query that are members of the
ground-truth id set of that query (`set(gt)` membership, line 197-200);
duplicates in the ground-truth row collapse in the set, and membership in the
set coincides with membership in the row. -/
def countMembers (k_neighbors gtRow : List Nat) : Nat :=
  (k_neighbors.filter fun neighbor => decide (neighbor ∈ gtRow)).length

/-- The recall computed at lines 192-203: per query, the member count divided
by `k`, summed, then divided by `len(queries)`. -/
def codeMeanRecall (top_k_indices ground_truth : List (List Nat))
    (k numQueries : Nat) : Rat :=
  (((top_k_indices.zip ground_truth).map fun p =>
    (countMembers p.1 p.2 : Rat) / (k : Rat)).sum) / (numQueries : Rat)

/-- Embedding of `compute_metrics` (lines 120-206).  After the searches, the
`RuntimeError` guard requires every query to return exactly `k` ids; the
conditional throughput and latency entries come first, and the recall entry
is always appended, unconditionally (lines 192-204). -/
def computeMetrics (oracle : SearchOracle) (requested_metrics : List String)
    (index : BuiltIndex) (queries : List Query)
    (ground_truth : List (List Nat)) (ef_search k : Nat) :
    Except String (List (String × Rat)) :=
  if (topKOf oracle index queries ef_search k).all
      (fun ids => ids.length == k) then
    .ok (timingMetrics requested_metrics queries.length
          (latenciesOf oracle index queries ef_search k)
        ++ [("recall", codeMeanRecall (topKOf oracle index queries ef_search k)
              ground_truth k queries.length)])
  else
    .error "Not all queries returned the same number of results."

/-- The per-query recall written the way the specification phrases it: the
fraction of the returned top-k ids of one query that are members of the
ground-truth id set of that query, membership taken as an unordered set. -/
def specPerQueryRecall (returned gtRow : List Nat) : Rat :=
  ((returned.filter fun neighbor => decide (neighbor ∈ gtRow)).length : Rat)
    / (returned.length : Rat)

/-- The recall written the way the specification phrases it: the per-query
fractions averaged uniformly over all queries. -/
def specMeanRecall (top_k_indices ground_truth : List (List Nat)) : Rat :=
  (((top_k_indices.zip ground_truth).map fun p =>
    specPerQueryRecall p.1 p.2).sum) / (top_k_indices.length : Rat)

/-- The five metric names whose computation is guarded by
`requested_metrics` membership, in the order the source tests them. -/
def fiveMetricNames : List String :=
  ["qps", "latency", "latency_p95", "latency_p99", "latency_p999"]

/-- A value stored in the JSON result store: either a float metric value or
a string tag. -/
inductive JValue where
  | num (q : Rat)
  | str (s : String)
  deriving DecidableEq

/-- One persisted metrics dictionary: key-value pairs in insertion order. -/
abbrev Record := List (String × JValue)

/-- The parsed result store: index-type name mapped to its list of records,
in insertion order. -/
abbrev Store := List (String × List Record)

/-- The on-disk state of the metrics file before one persistence step:
absent (or empty), present but not valid JSON, or a valid store document. -/
inductive StoreFile where
  | absent
  | corrupt
  | valid (s : Store)
  deriving DecidableEq

/-- Observable logging performed by the driver that the claims mention:
the `logging.error` call on a JSON decode failure (line 394). -/
inductive LogEvent where
  | storeReadError
  deriving DecidableEq

/-- Mirrors `if index_type not in all_metrics: all_metrics[index_type] = []`
(lines 396-397). -/
def ensureKey (s : Store) (index_type : String) : Store :=
  if index_type ∈ s.map Prod.fst then s else s ++ [(index_type, [])]

/-- Append a record to the sequence stored under a key
(`all_metrics[index_type].append(metrics)`, line 399). -/
def storeAppend : Store → String → Record → Store
  | [], index_type, record => [(index_type, [record])]
  | (key, records) :: rest, index_type, record =>
    if key = index_type then (key, records ++ [record]) :: rest
    else (key, records) :: storeAppend rest index_type record

/-- One read-merge-write persistence step (lines 387-401): start from
`{index_type: []}`; if the file holds a valid store, use it instead; if
it is syntactically invalid, log the error and keep the empty store; then
append the new record and rewrite the file. -/
def persistStep (file : StoreFile) (index_type : String) (record : Record) :
    StoreFile × List LogEvent :=
  match file with
  | .valid s => (.valid (storeAppend (ensureKey s index_type) index_type record), [])
  | .corrupt =>
    (.valid (storeAppend (ensureKey [(index_type, [])] index_type) index_type record),
     [.storeReadError])
  | .absent =>
    (.valid (storeAppend (ensureKey [(index_type, [])] index_type) index_type record), [])

/-- Observable actions of the sweep in `main`, in program order: an index
build call issued to `train_index`, a reorder call issued to the index, and
one search sweep (metric scoring plus persistence) for one ef_search. -/
inductive Event where
  | buildCall (index_type : String) (node_links ef_construction : Nat)
  | reorderCall (strategies : List String)
  | searchSweep (ef_search : Nat)
  deriving DecidableEq

/-- The arguments of `main` (lines 313-329) that the model needs.  `dim` and
`dataset_size` stand for `train_dataset.shape`; `existing_files` is the file
system state handed through to `train_index`.  Field order:
ef_cons_params, ef_search_params, num_node_links, distance_type, index_type,
use_hnsw_base_layer, hnsw_base_layer_filename, reordering_strategies,
num_build_threads, num_search_threads, dim, dataset_size, existing_files. -/
structure MainArgs where
  ef_cons_params : List Nat
  ef_search_params : List Nat
  num_node_links : List Nat
  distance_type : String
  index_type : String
  use_hnsw_base_layer : Bool
  hnsw_base_layer_filename : Option String
  reordering_strategies : Option (List String)
  num_build_threads : Nat
  num_search_threads : Nat
  dim : Nat
  dataset_size : Nat
  existing_files : List String

/-- The outcome of a `main` run: the ordered observable events, the final
state of the metrics file, the log lines, and the uncaught exception if one
was raised (`none` when the run completed). -/
structure MainResult where
  events : List Event
  store : StoreFile
  logs : List LogEvent
  error : Option String
  deriving DecidableEq

/-- The reordering validation of `main` (lines 355-361): only reached when
strategies were requested; raises `ValueError` when the built index is not a
flatnav index, otherwise issues the reorder call. -/
def reorderCheck (index : BuiltIndex) (strategies : Option (List String)) :
    Except String (List Event) :=
  match strategies with
  | none => .ok []
  | some s =>
    if isFlatnav index then .ok [.reorderCall s]
    else .error "Reordering only applies to the FlatNav index."

/-- The metric names `main` requests from `compute_metrics`
(lines 366-373). -/
def allRequestedMetrics : List String :=
  ["recall", "qps", "latency", "latency_p95", "latency_p99", "latency_p999"]

/-- The record appended to the store in one persistence step of `main`: the
dictionary returned by `compute_metrics` with the `distance_type` tag added
(line 386).  The `node_links` and `ef_construction` entries written at lines
336 and 339 went into the dictionary object that the assignment at line 365
discarded, so they do not reach this record, and no `ef_search` entry is ever
written. -/
def recordOf (metrics : List (String × Rat)) (distance_type : String) : Record :=
  metrics.map (fun p => (p.1, JValue.num p.2))
    ++ [("distance_type", JValue.str distance_type)]

/-- The innermost loop of `main` (lines 364-401): for each ef_search, score
the index (with `compute_metrics` default `k=100`) and persist one record. -/
def efSearchLoop (oracle : SearchOracle) (queries : List Query)
    (gtruth : List (List Nat)) (index : BuiltIndex) (a : MainArgs) :
    List Nat → List Event → StoreFile → List LogEvent → MainResult
  | [], evs, st, lg => ⟨evs, st, lg, none⟩
  | ef_search :: rest, evs, st, lg =>
    match computeMetrics oracle allRequestedMetrics index queries gtruth ef_search 100 with
    | .error msg => ⟨evs, st, lg, some msg⟩
    | .ok metrics =>
      match persistStep st a.index_type (recordOf metrics a.distance_type) with
      | (st2, lg2) =>
        efSearchLoop oracle queries gtruth index a rest
          (evs ++ [.searchSweep ef_search]) st2 (lg ++ lg2)

/-- The middle loop of `main` (lines 338-401): for each ef_construction,
issue the build call, validate reordering, then run the search sweep.  A
raised exception aborts the whole run. -/
def efConsLoop (oracle : SearchOracle) (queries : List Query)
    (gtruth : List (List Nat)) (a : MainArgs) (node_links : Nat) :
    List Nat → List Event → StoreFile → List LogEvent → MainResult
  | [], evs, st, lg => ⟨evs, st, lg, none⟩
  | ef_cons :: rest, evs, st, lg =>
    match train_index a.distance_type a.dim a.dataset_size node_links ef_cons
        a.index_type a.use_hnsw_base_layer a.hnsw_base_layer_filename
        a.num_build_threads a.existing_files with
    | .error msg =>
      ⟨evs ++ [.buildCall a.index_type node_links ef_cons], st, lg, some msg⟩
    | .ok index =>
      match reorderCheck index a.reordering_strategies with
      | .error msg =>
        ⟨evs ++ [.buildCall a.index_type node_links ef_cons], st, lg, some msg⟩
      | .ok revs =>
        match efSearchLoop oracle queries gtruth index a a.ef_search_params
            (evs ++ [.buildCall a.index_type node_links ef_cons] ++ revs) st lg with
        | ⟨evs2, st2, lg2, none⟩ =>
          efConsLoop oracle queries gtruth a node_links rest evs2 st2 lg2
        | r => r

/-- The outer loop of `main` (lines 335-401). -/
def nodeLinksLoop (oracle : SearchOracle) (queries : List Query)
    (gtruth : List (List Nat)) (a : MainArgs) :
    List Nat → List Event → StoreFile → List LogEvent → MainResult
  | [], evs, st, lg => ⟨evs, st, lg, none⟩
  | nl :: rest, evs, st, lg =>
    match efConsLoop oracle queries gtruth a nl a.ef_cons_params evs st lg with
    | ⟨evs2, st2, lg2, none⟩ => nodeLinksLoop oracle queries gtruth a rest evs2 st2 lg2
    | r => r

/-- Embedding of `main` (lines 313-401).  The `num_initializations` parameter
is part of the signature (line 326) but the body never reads it, which the
definition reflects. -/
def mainModel (oracle : SearchOracle) (queries : List Query)
    (gtruth : List (List Nat)) (a : MainArgs)
    (num_initializations : Option (List Nat)) (file : StoreFile) : MainResult :=
  nodeLinksLoop oracle queries gtruth a a.num_node_links [] file []

/-- Projection used to inspect a run that persisted exactly one record: the
index-type key it was stored under and the ordered keys of that record. -/
def storedRecordKeys (r : MainResult) : Option (String × List String) :=
  match r.store with
  | .valid [(index_type, [record])] => some (index_type, record.map Prod.fst)
  | _ => none

/-- A ground-truth file: the two header fields it declares and its actual
total size in bytes. -/
structure GtFile where
  num_queries : Nat
  K : Nat
  byteSize : Nat
  deriving DecidableEq

/-- The two read-only views `load_ground_truth` returns: byte offsets and
(row, column) shapes of the id block and the distance block, plus the header
values. -/
structure GtViews where
  ids_offset : Nat
  ids_shape : Nat × Nat
  dists_offset : Nat
  dists_shape : Nat × Nat
  num_queries : Nat
  K : Nat
  deriving DecidableEq

/-- Embedding of `load_ground_truth` (lines 41-71).  Reading the two header
integers needs 8 bytes; each `np.memmap(..., mode="r")` call raises
`ValueError` when the mapped window `offset + rows * cols * itemsize`
exceeds the actual file size, and succeeds otherwise — the function itself
performs no consistency check of its own. -/
def load_ground_truth (f : GtFile) : Except String GtViews :=
  if f.byteSize < 8 then
    .error "could not read ground-truth header"
  else if f.byteSize < 8 + f.num_queries * f.K * 4 then
    .error "mmap length is greater than file size"
  else if f.byteSize < 8 + f.num_queries * f.K * 4 + f.num_queries * f.K * 4 then
    .error "mmap length is greater than file size"
  else
    .ok { ids_offset := 8
          ids_shape := (f.num_queries, f.K)
          dists_offset := 8 + f.num_queries * f.K * 4
          dists_shape := (f.num_queries, f.K)
          num_queries := f.num_queries
          K := f.K }

/-- Size consistency as the specification declares the format:
header (8 bytes), then Q*K uint32 ids, then Q*K float32 distances. -/
def gtSizeConsistent (f : GtFile) : Prop :=
  f.byteSize = 8 + f.num_queries * f.K * 4 + f.num_queries * f.K * 4

/-- An oracle whose searches all take one second and return ids 0..99, the
result width `compute_metrics` expects at its default `k = 100`. -/
def constOracle : SearchOracle :=
  ⟨fun _ _ _ _ _ => (1, List.range 100), fun _ _ _ _ => (1, List.range 100)⟩

/-- An oracle whose searches all take one second and return the single id 0,
for scoring calls with `k = 1`. -/
def tinyOracle : SearchOracle :=
  ⟨fun _ _ _ _ _ => (1, [0]), fun _ _ _ _ => (1, [0])⟩

/-- An oracle that behaves like `constOracle` when called with
`num_initializations = 100` and differently otherwise. -/
def offOracle : SearchOracle :=
  ⟨fun _ _ _ _ num_init =>
    if num_init = 100 then (1, List.range 100) else (2, []),
   fun _ _ _ _ => (1, List.range 100)⟩

/-- A concrete flatnav index for scoring-call fixtures. -/
def idxF : BuiltIndex :=
  .flatnavDirect { distance_type := "l2", dim := 4, dataset_size := 1000,
                   max_edges_per_node := 16, ef_construction := 100 }

/-- A one-combination flatnav sweep configuration. -/
def flatnavArgs : MainArgs :=
  { ef_cons_params := [100]
    ef_search_params := [50]
    num_node_links := [16]
    distance_type := "l2"
    index_type := "flatnav"
    use_hnsw_base_layer := false
    hnsw_base_layer_filename := none
    reordering_strategies := none
    num_build_threads := 1
    num_search_threads := 1
    dim := 4
    dataset_size := 1000
    existing_files := [] }

/-- A one-combination hnsw sweep configuration that also requests reordering
strategies. -/
def hnswReorderArgs : MainArgs :=
  { ef_cons_params := [100]
    ef_search_params := [50]
    num_node_links := [16]
    distance_type := "l2"
    index_type := "hnsw"
    use_hnsw_base_layer := false
    hnsw_base_layer_filename := none
    reordering_strategies := some ["gorder"]
    num_build_threads := 1
    num_search_threads := 1
    dim := 4
    dataset_size := 1000
    existing_files := [] }

/-! Helper lemmas shared by the claim theorems. -/

/-- The search loop of `compute_metrics` issues exactly one search per query. -/
theorem runQueries_length (oracle : SearchOracle) (index : BuiltIndex)
    (queries : List Query) (e k : Nat) :
    (runQueries oracle index queries e k).length = queries.length := by
  unfold runQueries
  split <;> simp

/-- Inversion of a successful `compute_metrics` call: the result-count guard
held and the returned record is the conditional timing entries followed by
the unconditional recall entry. -/
theorem computeMetrics_ok {oracle : SearchOracle} {requested : List String}
    {index : BuiltIndex} {queries : List Query} {ground_truth : List (List Nat)}
    {e k : Nat} {rec : List (String × Rat)}
    (hok : computeMetrics oracle requested index queries ground_truth e k = .ok rec) :
    ((topKOf oracle index queries e k).all fun ids => ids.length == k) = true
    ∧ rec = timingMetrics requested queries.length (latenciesOf oracle index queries e k)
        ++ [("recall", codeMeanRecall (topKOf oracle index queries e k)
              ground_truth k queries.length)] := by
  unfold computeMetrics at hok
  split at hok
  · injection hok with h
    exact ⟨by assumption, h.symm⟩
  · cases hok

/-- A list of rationals that are each at most one sums to at most the list
length. -/
theorem sum_le_length_of_le_one (l : List Rat) (h : ∀ x ∈ l, x ≤ 1) :
    l.sum ≤ (l.length : Rat) := by
  induction l with
  | nil => simp
  | cons a t ih =>
    simp only [List.sum_cons, List.length_cons]
    have ha := h a (List.mem_cons_self a t)
    have ht := ih fun x hx => h x (List.mem_cons_of_mem a hx)
    push_cast
    linarith

/-! Claim theorems. -/

/-- Claim C1, counterexample: with the hnsw backend and reordering strategies
requested, the run does raise the configuration error, but only after an
index build call has already been issued for that sweep — refuting the claim
that the error precedes any build call. -/
theorem c1_counterexample :
    (mainModel constOracle [] [] hnswReorderArgs none .absent).error
      = some "Reordering only applies to the FlatNav index."
    ∧ Event.buildCall "hnsw" 16 100
        ∈ (mainModel constOracle [] [] hnswReorderArgs none .absent).events := by
  constructor <;> decide

/-- Claim C1, amended: for every sweep over nonempty node-link and
ef-construction lists with the hnsw backend and reordering strategies
requested, the run raises the configuration error after exactly one index
build call (the first parameter combination) and before any reordering,
search sweep, or persistence: the store file is left unchanged. -/
theorem c1_amended (oracle : SearchOracle) (queries : List Query)
    (gtruth : List (List Nat)) (nl : Nat) (nls : List Nat) (ec : Nat)
    (ecs : List Nat) (efs : List Nat) (dt : String) (strategies : List String)
    (u : Bool) (fname : Option String) (ni : Option (List Nat))
    (bt st dim ds : Nat) (fs : List String) (file : StoreFile) :
    mainModel oracle queries gtruth
      ⟨ec :: ecs, efs, nl :: nls, dt, "hnsw", u, fname, some strategies,
        bt, st, dim, ds, fs⟩ ni file
      = ⟨[.buildCall "hnsw" nl ec], file, [],
          some "Reordering only applies to the FlatNav index."⟩ := rfl

/-- Claim C2: running one sweep combination, the record persisted to the
store holds only the six metric entries plus the distance-type tag; the
node-link count, ef-construction and ef-search parameters are absent, because
the dictionary carrying them is discarded when the metrics name is rebound to
the fresh result of `compute_metrics`. -/
theorem c2_record_missing_params :
    storedRecordKeys (mainModel constOracle [0] [List.range 100] flatnavArgs none .absent)
      = some ("flatnav",
        ["qps", "latency", "latency_p95", "latency_p99", "latency_p999",
          "recall", "distance_type"])
    ∧ "node_links" ∉ ["qps", "latency", "latency_p95", "latency_p99",
        "latency_p999", "recall", "distance_type"]
    ∧ "ef_construction" ∉ ["qps", "latency", "latency_p95", "latency_p99",
        "latency_p999", "recall", "distance_type"]
    ∧ "ef_search" ∉ ["qps", "latency", "latency_p95", "latency_p99",
        "latency_p999", "recall", "distance_type"] := by
  refine ⟨by decide, by decide, by decide, by decide⟩

/-- Claim C3, counterexample: a scoring call that requests no metrics at all
still computes recall and returns it in the record, refuting the claim that
no unrequested metric (recall included) is computed or present. -/
theorem c3_counterexample :
    computeMetrics tinyOracle [] idxF [0] [[0]] 7 1 = .ok [("recall", 1)]
    ∧ "recall" ∉ ([] : List String) := by
  refine ⟨?_, by decide⟩
  simp [computeMetrics, topKOf, latenciesOf, runQueries, tinyOracle, idxF, isFlatnav,
    timingMetrics, codeMeanRecall, countMembers]

/-- Claim C3, amended: the keys of every successful metrics record are
exactly the requested names among the five guarded throughput and latency
metrics, in engine order, followed always by recall, which is computed and
present whether or not it was requested. -/
theorem c3_amended (oracle : SearchOracle) (requested : List String)
    (index : BuiltIndex) (queries : List Query) (gt : List (List Nat))
    (e k : Nat) (rec : List (String × Rat))
    (hok : computeMetrics oracle requested index queries gt e k = .ok rec) :
    rec.map Prod.fst
      = (fiveMetricNames.filter fun s => decide (s ∈ requested)) ++ ["recall"] := by
  obtain ⟨-, hrec⟩ := computeMetrics_ok hok
  subst hrec
  by_cases h1 : "qps" ∈ requested <;> by_cases h2 : "latency" ∈ requested <;>
    by_cases h3 : "latency_p95" ∈ requested <;> by_cases h4 : "latency_p99" ∈ requested <;>
    by_cases h5 : "latency_p999" ∈ requested <;>
    simp [timingMetrics, fiveMetricNames, h1, h2, h3, h4, h5]

/-- Claim C3, witness: a concrete scoring call requesting only qps yields a
record keyed by qps and recall, matching the amended key equation. -/
theorem c3_witness :
    computeMetrics tinyOracle ["qps"] idxF [0] [[0]] 7 1 = .ok [("qps", 1), ("recall", 1)]
    ∧ ([("qps", (1 : Rat)), ("recall", 1)] : List (String × Rat)).map Prod.fst
        = (fiveMetricNames.filter fun s => decide (s ∈ (["qps"] : List String))) ++ ["recall"] := by
  have hok : computeMetrics tinyOracle ["qps"] idxF [0] [[0]] 7 1
      = .ok [("qps", 1), ("recall", 1)] := by
    simp [computeMetrics, topKOf, latenciesOf, runQueries, tinyOracle, idxF, isFlatnav,
      timingMetrics, codeMeanRecall, countMembers]
  exact ⟨hok, c3_amended tinyOracle ["qps"] idxF [0] [[0]] 7 1 _ hok⟩

/-- Claim C4, counterexample: a ground-truth file declaring one query and
K = 1 but holding 20 bytes instead of the consistent 16 is loaded
successfully and views are returned, refuting the claim that every size
inconsistency fails the load. -/
theorem c4_counterexample :
    ¬ gtSizeConsistent ⟨1, 1, 20⟩
    ∧ load_ground_truth ⟨1, 1, 20⟩ = .ok ⟨8, (1, 1), 12, (1, 1), 1, 1⟩ :=
  ⟨by intro h; simp [gtSizeConsistent] at h, rfl⟩

/-- Claim C4, amended: loading a ground-truth file succeeds exactly when the
file is large enough to cover the header and the two declared blocks, so only
undersized files fail (through the mapping-layer bounds error); oversized
inconsistent files return views, and the returned views sit at the declared
offsets with the declared shapes. -/
theorem c4_amended (f : GtFile) :
    ((∃ v, load_ground_truth f = .ok v) ↔
      8 + f.num_queries * f.K * 4 + f.num_queries * f.K * 4 ≤ f.byteSize)
    ∧ ∀ v, load_ground_truth f = .ok v →
        v.ids_offset = 8 ∧ v.ids_shape = (f.num_queries, f.K)
        ∧ v.dists_offset = 8 + f.num_queries * f.K * 4
        ∧ v.dists_shape = (f.num_queries, f.K) := by
  unfold load_ground_truth
  split_ifs with h1 h2 h3
  · refine ⟨⟨?_, ?_⟩, ?_⟩
    · rintro ⟨v, hv⟩
      cases hv
    · intro h
      omega
    · intro v hv
      cases hv
  · refine ⟨⟨?_, ?_⟩, ?_⟩
    · rintro ⟨v, hv⟩
      cases hv
    · intro h
      omega
    · intro v hv
      cases hv
  · refine ⟨⟨?_, ?_⟩, ?_⟩
    · rintro ⟨v, hv⟩
      cases hv
    · intro h
      omega
    · intro v hv
      cases hv
  · refine ⟨⟨fun _ => by omega, fun _ => ⟨_, rfl⟩⟩, fun v hv => ?_⟩
    injection hv with h
    subst h
    exact ⟨rfl, rfl, rfl, rfl⟩

/-- Claim C4, witness: a size-consistent file of 16 bytes loads and the
returned views carry the declared offsets and shapes. -/
theorem c4_witness :
    load_ground_truth ⟨1, 1, 16⟩ = .ok ⟨8, (1, 1), 12, (1, 1), 1, 1⟩
    ∧ ((⟨8, (1, 1), 12, (1, 1), 1, 1⟩ : GtViews).ids_offset = 8
       ∧ (⟨8, (1, 1), 12, (1, 1), 1, 1⟩ : GtViews).ids_shape = (1, 1)
       ∧ (⟨8, (1, 1), 12, (1, 1), 1, 1⟩ : GtViews).dists_offset = 8 + 1 * 1 * 4
       ∧ (⟨8, (1, 1), 12, (1, 1), 1, 1⟩ : GtViews).dists_shape = (1, 1)) :=
  ⟨rfl, (c4_amended ⟨1, 1, 16⟩).2 _ rfl⟩

/-- Claim C5, counterexample: base-layer reuse requested with a filename that
exists nowhere on disk still builds successfully — the build exports the base
layer to that filename itself — refuting the claim that the file must exist
beforehand and that a missing file fails the build. -/
theorem c5_counterexample :
    train_index "l2" 4 1000 16 100 "flatnav" true (some "hnsw_base.mtx") 1 []
      = .ok (.flatnavFromBaseLayer "l2" 4 "hnsw_base.mtx" ⟨"l2", 4, 1000, 100, 8, 1⟩)
    ∧ "hnsw_base.mtx" ∉ ([] : List String) :=
  ⟨rfl, by decide⟩

/-- Claim C5, amended: a flatnav build with base-layer reuse requested fails
(with the ValueError) exactly when no filename is supplied — `None` or the
empty string; the file itself need not exist on disk beforehand, regardless
of the file-system state. -/
theorem c5_amended (dt : String) (dim ds m ef th : Nat) (fname : Option String)
    (fs : List String) :
    (∃ e, train_index dt dim ds m ef "flatnav" true fname th fs = .error e)
      ↔ (fname = none ∨ fname = some "") := by
  unfold train_index
  cases fname with
  | none => simp
  | some s =>
    by_cases hs : s = ""
    · subst hs
      simp
    · simp [hs]

/-- Claim C5, witness: requesting reuse without any filename raises the
error. -/
theorem c5_witness :
    (none : Option String) = none
    ∧ ∃ e, train_index "l2" 4 1000 16 100 "flatnav" true none 1 [] = .error e :=
  ⟨rfl, (c5_amended "l2" 4 1000 16 100 1 none []).mpr (Or.inl rfl)⟩

/-- Claim C8: building the hnsw backend passes the halved node-link count
down as the max-edges parameter, while the direct flatnav build passes the
requested count unchanged. -/
theorem c8_half_edges (dt : String) (dim ds m ef th : Nat) (u : Bool)
    (fname : Option String) (fs : List String) :
    (∃ p : HnswBuildParams,
      train_index dt dim ds m ef "hnsw" u fname th fs = .ok (.hnswIdx p)
      ∧ p.max_edges_per_node = m / 2)
    ∧ (∃ q : FlatnavBuildParams,
      train_index dt dim ds m ef "flatnav" false fname th fs = .ok (.flatnavDirect q)
      ∧ q.max_edges_per_node = m) :=
  ⟨⟨_, rfl, rfl⟩, ⟨_, rfl, rfl⟩⟩

/-- Claim C9: a persistence step that reads a syntactically invalid store
file logs the corruption and writes a store holding exactly the new record;
a full run started on a corrupted store completes without error, logs the
corruption once, and its final store holds exactly the record of that run. -/
theorem c9_corrupt_store :
    (∀ (index_type : String) (record : Record),
      persistStep .corrupt index_type record
        = (.valid [(index_type, [record])], [.storeReadError]))
    ∧ (mainModel constOracle [0] [List.range 100] flatnavArgs none .corrupt).error = none
    ∧ (mainModel constOracle [0] [List.range 100] flatnavArgs none .corrupt).logs
        = [.storeReadError]
    ∧ storedRecordKeys (mainModel constOracle [0] [List.range 100] flatnavArgs none .corrupt)
        = some ("flatnav",
          ["qps", "latency", "latency_p95", "latency_p99", "latency_p999",
            "recall", "distance_type"]) := by
  refine ⟨?_, by decide, by decide, by decide⟩
  intro index_type record
  simp [persistStep, ensureKey, storeAppend]

/-- Claim C10: the num_initializations argument of `main` has no effect on
the run, and every flatnav scoring search is issued with the literal
num_initializations value 100. -/
theorem c10_num_init_fixed :
    (∀ (oracle : SearchOracle) (queries : List Query) (gtruth : List (List Nat))
      (a : MainArgs) (v1 v2 : Option (List Nat)) (file : StoreFile),
      mainModel oracle queries gtruth a v1 file = mainModel oracle queries gtruth a v2 file)
    ∧ (∀ (oracle : SearchOracle) (index : BuiltIndex), isFlatnav index = true →
      ∀ (queries : List Query) (ef_search k : Nat),
      runQueries oracle index queries ef_search k
        = queries.map fun query => oracle.search_single index query ef_search k 100) := by
  constructor
  · intro oracle queries gtruth a v1 v2 file
    rfl
  · intro oracle index h queries ef_search k
    simp [runQueries, h]

/-- Claim C10, witness: with an oracle that behaves differently whenever
num_initializations differs from 100, the run is unchanged by the caller
value and a concrete flatnav scoring call carries the literal 100. -/
theorem c10_witness :
    isFlatnav idxF = true
    ∧ mainModel offOracle [0] [List.range 100] flatnavArgs (some [5]) .absent
        = mainModel offOracle [0] [List.range 100] flatnavArgs none .absent
    ∧ runQueries offOracle idxF [0] 50 100
        = [0].map fun query => offOracle.search_single idxF query 50 100 100 :=
  ⟨by decide,
   c10_num_init_fixed.1 offOracle [0] [List.range 100] flatnavArgs (some [5]) none .absent,
   c10_num_init_fixed.2 offOracle idxF (by decide) [0] 50 100⟩

/-- Claim C6: the recall entry of every successful metrics record equals the
per-query fraction of returned top-k ids belonging to the ground-truth id set
of that query, averaged uniformly over all queries (the spec phrasing and the
code agree once every query returns exactly k ids); the value always lies in
the unit interval, and a query whose returned top-k lies entirely inside its
ground-truth id set contributes per-query recall one. -/
theorem c6_recall (oracle : SearchOracle) (requested : List String)
    (index : BuiltIndex) (queries : List Query) (gt : List (List Nat))
    (e k : Nat) (rec : List (String × Rat))
    (hok : computeMetrics oracle requested index queries gt e k = .ok rec)
    (hlen : gt.length = queries.length) (hk : 0 < k) (hne : queries ≠ []) :
    rec.getLast? = some ("recall",
      codeMeanRecall (topKOf oracle index queries e k) gt k queries.length)
    ∧ codeMeanRecall (topKOf oracle index queries e k) gt k queries.length
      = specMeanRecall (topKOf oracle index queries e k) gt
    ∧ 0 ≤ codeMeanRecall (topKOf oracle index queries e k) gt k queries.length
    ∧ codeMeanRecall (topKOf oracle index queries e k) gt k queries.length ≤ 1
    ∧ ∀ tk g, (tk, g) ∈ (topKOf oracle index queries e k).zip gt →
        (∀ x ∈ tk, x ∈ g) → (countMembers tk g : Rat) / (k : Rat) = 1 := by
  obtain ⟨hall, hrec⟩ := computeMetrics_ok hok
  have hlens : ∀ ids ∈ topKOf oracle index queries e k, ids.length = k := by
    intro ids hid
    have h := List.all_eq_true.mp hall ids hid
    simpa using h
  have htl : (topKOf oracle index queries e k).length = queries.length := by
    simp [topKOf, runQueries_length]
  have hkpos : 0 < ((k : Nat) : Rat) := by exact_mod_cast hk
  have hQpos : 0 < ((queries.length : Nat) : Rat) := by
    have h : 0 < queries.length := List.length_pos.mpr hne
    exact_mod_cast h
  have hzlen : ((topKOf oracle index queries e k).zip gt).length = queries.length := by
    simp [List.length_zip, htl, hlen]
  refine ⟨?_, ?_, ?_, ?_, ?_⟩
  · rw [hrec, List.getLast?_concat]
  · unfold codeMeanRecall specMeanRecall
    rw [htl]
    congr 1
    apply congrArg List.sum
    apply List.map_congr_left
    intro p hp
    obtain ⟨tk, g⟩ := p
    unfold specPerQueryRecall countMembers
    rw [hlens tk (List.of_mem_zip hp).1]
  · unfold codeMeanRecall
    apply div_nonneg _ hQpos.le
    apply List.sum_nonneg
    intro x hx
    obtain ⟨p, hp, rfl⟩ := List.mem_map.mp hx
    exact div_nonneg (Nat.cast_nonneg _) (Nat.cast_nonneg _)
  · unfold codeMeanRecall
    rw [div_le_one hQpos]
    have hlelen := sum_le_length_of_le_one
      (((topKOf oracle index queries e k).zip gt).map fun p =>
        (countMembers p.1 p.2 : Rat) / (k : Rat)) ?_
    · calc _ ≤ _ := hlelen
        _ = ((queries.length : Nat) : Rat) := by
          rw [List.length_map, hzlen]
    · intro x hx
      obtain ⟨p, hp, rfl⟩ := List.mem_map.mp hx
      rw [div_le_one hkpos]
      have hc : countMembers p.1 p.2 ≤ p.1.length := List.length_filter_le _ _
      have hck : countMembers p.1 p.2 ≤ k := by
        rw [← hlens p.1 (List.of_mem_zip (by exact hp)).1]
        exact hc
      exact_mod_cast hck
  · intro tk g hmem hallmem
    have h1 : tk.length = k := hlens tk (List.of_mem_zip hmem).1
    have h2 : countMembers tk g = tk.length := by
      unfold countMembers
      rw [List.filter_eq_self.mpr]
      intro a ha
      exact decide_eq_true (hallmem a ha)
    rw [h2, h1, div_self hkpos.ne']

/-- Claim C6, witness: a one-query, k = 1 scoring call whose returned id
matches the ground truth; all hypotheses hold and the record recall is one. -/
theorem c6_witness :
    computeMetrics tinyOracle [] idxF [0] [[0]] 7 1 = .ok [("recall", 1)]
    ∧ ([[0]] : List (List Nat)).length = ([0] : List Query).length
    ∧ 0 < 1
    ∧ ([0] : List Query) ≠ []
    ∧ (([("recall", (1 : Rat))] : List (String × Rat)).getLast?
        = some ("recall",
          codeMeanRecall (topKOf tinyOracle idxF [0] 7 1) [[0]] 1 ([0] : List Query).length)
       ∧ codeMeanRecall (topKOf tinyOracle idxF [0] 7 1) [[0]] 1 ([0] : List Query).length
          = specMeanRecall (topKOf tinyOracle idxF [0] 7 1) [[0]]
       ∧ 0 ≤ codeMeanRecall (topKOf tinyOracle idxF [0] 7 1) [[0]] 1 ([0] : List Query).length
       ∧ codeMeanRecall (topKOf tinyOracle idxF [0] 7 1) [[0]] 1 ([0] : List Query).length ≤ 1
       ∧ ∀ tk g, (tk, g) ∈ (topKOf tinyOracle idxF [0] 7 1).zip ([[0]] : List (List Nat)) →
          (∀ x ∈ tk, x ∈ g) → (countMembers tk g : Rat) / ((1 : Nat) : Rat) = 1) := by
  have hok : computeMetrics tinyOracle [] idxF [0] [[0]] 7 1 = .ok [("recall", 1)] := by
    simp [computeMetrics, topKOf, latenciesOf, runQueries, tinyOracle, idxF, isFlatnav,
      timingMetrics, codeMeanRecall, countMembers]
  exact ⟨hok, rfl, by decide, by decide,
    c6_recall tinyOracle [] idxF [0] [[0]] 7 1 [("recall", 1)] hok rfl (by decide) (by decide)⟩

/-- Claim C7: the qps entry of every successful metrics record equals the
query count divided by the sum of the per-query durations, the latency entry
is the mean duration in milliseconds, and qps times the mean latency in
seconds times the query count equals the query count exactly. -/
theorem c7_qps_inverse (oracle : SearchOracle) (requested : List String)
    (index : BuiltIndex) (queries : List Query) (gt : List (List Nat))
    (e k : Nat) (rec : List (String × Rat))
    (hok : computeMetrics oracle requested index queries gt e k = .ok rec)
    (hq : "qps" ∈ requested) (hl : "latency" ∈ requested)
    (hsum : (latenciesOf oracle index queries e k).sum ≠ 0)
    (hne : queries ≠ []) :
    rec.lookup "qps"
      = some ((queries.length : Rat) / (latenciesOf oracle index queries e k).sum)
    ∧ rec.lookup "latency"
      = some (npMean (latenciesOf oracle index queries e k) * 1000)
    ∧ ((queries.length : Rat) / (latenciesOf oracle index queries e k).sum)
        * npMean (latenciesOf oracle index queries e k) * (queries.length : Rat)
      = (queries.length : Rat) := by
  obtain ⟨-, hrec⟩ := computeMetrics_ok hok
  subst hrec
  have hb1 : (("qps" : String) == "qps") = true := by decide
  have hb2 : (("latency" : String) == "qps") = false := by decide
  have hb3 : (("latency" : String) == "latency") = true := by decide
  refine ⟨?_, ?_, ?_⟩
  · simp [timingMetrics, hq, hl, List.lookup, hb1]
  · simp [timingMetrics, hq, hl, List.lookup, hb1, hb2, hb3]
  · have hL : ((latenciesOf oracle index queries e k).length : Rat) = (queries.length : Rat) := by
      simp [latenciesOf, runQueries_length]
    have hQ : ((queries.length : Nat) : Rat) ≠ 0 := by
      have h : queries.length ≠ 0 := fun h => hne (List.length_eq_zero.mp h)
      exact_mod_cast h
    unfold npMean
    rw [hL]
    field_simp

/-- Claim C7, witness: a one-query scoring call with a one-second duration;
qps is one, mean latency is 1000 milliseconds, and the inverse identity
holds. -/
theorem c7_witness :
    computeMetrics tinyOracle ["qps", "latency"] idxF [0] [[0]] 7 1
      = .ok [("qps", 1), ("latency", 1000), ("recall", 1)]
    ∧ (latenciesOf tinyOracle idxF [0] 7 1).sum ≠ 0
    ∧ (([("qps", (1 : Rat)), ("latency", 1000), ("recall", 1)] : List (String × Rat)).lookup "qps"
        = some ((([0] : List Query).length : Rat) / (latenciesOf tinyOracle idxF [0] 7 1).sum)
       ∧ ([("qps", (1 : Rat)), ("latency", 1000), ("recall", 1)] : List (String × Rat)).lookup "latency"
        = some (npMean (latenciesOf tinyOracle idxF [0] 7 1) * 1000)
       ∧ ((([0] : List Query).length : Rat) / (latenciesOf tinyOracle idxF [0] 7 1).sum)
          * npMean (latenciesOf tinyOracle idxF [0] 7 1) * (([0] : List Query).length : Rat)
        = (([0] : List Query).length : Rat)) := by
  have hok : computeMetrics tinyOracle ["qps", "latency"] idxF [0] [[0]] 7 1
      = .ok [("qps", 1), ("latency", 1000), ("recall", 1)] := by
    simp [computeMetrics, topKOf, latenciesOf, runQueries, tinyOracle, idxF, isFlatnav,
      timingMetrics, codeMeanRecall, countMembers, npMean]
  have hsum : (latenciesOf tinyOracle idxF [0] 7 1).sum ≠ 0 := by
    norm_num [latenciesOf, runQueries, tinyOracle, idxF, isFlatnav]
  exact ⟨hok, hsum,
    c7_qps_inverse tinyOracle ["qps", "latency"] idxF [0] [[0]] 7 1 _ hok
      (by decide) (by decide) hsum (by decide)⟩

end BigBench
